import Mathlib

/-
Verification of the tmi.js chat client core (src/client.ts) against its
natural-language specification.

The session state machine (_handleMessage), connection glue (_onConnect,
_onClose, _onError, connect) and outbound builders (sendCommand, say) are
embedded from src/client.ts.  The passive entity classes (Channel, User,
ClientUser, UserState, MessageData) live in repository files that are not
under src/, so they are modelled from the spec's data model (section 3).
JavaScript object identity is modelled with an allocation counter: every
constructed entity receives a fresh numeric id.  A thrown TypeError (a null
or undefined dereference) is modelled as a Fault recorded in the dispatch
result, together with the state as mutated up to the throw.
-/

namespace TmiJS

/-- Key-value metadata attached to a protocol line (tags), modelled as an
association list in insertion order. -/
abbrev Tags := List (String × String)

/-- Lookup of the first entry with the given key in an association list
(the JS Map.get). -/
def lookupKey {α β : Type} [DecidableEq α] : List (α × β) → α → Option β
  | [], _ => none
  | (k, v) :: rest, key => if k = key then some v else lookupKey rest key

/-- The JS Map.set: replace the value of an existing key in place, otherwise
append a new entry. -/
def setKey {α β : Type} [DecidableEq α] : List (α × β) → α → β → List (α × β)
  | [], key, val => [(key, val)]
  | (k, v) :: rest, key, val =>
      if k = key then (key, val) :: rest else (k, v) :: setKey rest key val

/-- The JS Map.delete: remove the entry with the given key. -/
def delKey {α β : Type} [DecidableEq α] (m : List (α × β)) (key : α) : List (α × β) :=
  m.filter (fun p => !(decide (p.1 = key)))

/-- Number of entries stored under the given key (a JS Map always holds at
most one). -/
def countKey {α β : Type} [DecidableEq α] (m : List (α × β)) (key : α) : Nat :=
  (m.filter (fun p => decide (p.1 = key))).length

/-- Merge of incoming tags into existing ones: each incoming pair overwrites
the entry for its key, entries absent from the incoming tags survive.
Modelled from the spec: UserState is "updated in place via a merge of
incoming tags" (user.ts is not under src/). -/
def Tags.merge (old incoming : Tags) : Tags :=
  incoming.foldl (fun acc kv => setKey acc kv.1 kv.2) old

/-- The sender half of a decoded line (the IRC prefix name!user@host); the
codec leaves fields it did not find absent. -/
structure Sender where
  name : Option String
  user : Option String
  host : Option String
deriving Repr, DecidableEq

/-- A decoded protocol line as produced by the external message codec
(tekko.parse), together with the raw line text _handleMessage attaches. -/
structure ParsedMessage where
  tags : Tags
  sender : Option Sender
  command : String
  params : List String
  raw : String
deriving Repr, DecidableEq

/-- Modelled from the spec: the Channel entity (channel.ts is not under src/):
identified by its name and holding the tags it was constructed with; id
models JavaScript object identity (each constructor call allocates afresh). -/
structure Channel where
  id : Nat
  name : Option String
  tags : Tags
deriving Repr, DecidableEq

/-- Modelled from the spec: the User entity (user.ts is not under src/):
login name taken from the message sender, display tags, and a back-reference
to the channel it was observed in. -/
structure User where
  id : Nat
  login : Option String
  tags : Tags
  channel : Option Channel
deriving Repr, DecidableEq

/-- Modelled from the spec: per-channel status of the authenticated user
(user.ts is not under src/); update merges incoming tags in place. -/
structure UserState where
  id : Nat
  tags : Tags
  channel : Option Channel
deriving Repr, DecidableEq

/-- UserState.update: in-place merge of incoming tags (identity preserved). -/
def UserState.update (st : UserState) (newTags : Tags) : UserState :=
  { st with tags := Tags.merge st.tags newTags }

/-- Modelled from the spec: the authenticated user (user.ts is not under
src/), holding the identity login and the channelName to UserState map. -/
structure ClientUser where
  id : Nat
  login : Option String
  tags : Tags
  states : List (Option String × UserState)
deriving Repr, DecidableEq

/-- Modelled from the spec: MessageData, the transient wrapper handed to
listeners (message.ts is not under src/). -/
structure MessageData where
  tags : Tags
  sender : Option Sender
  params : List String
  raw : String
deriving Repr, DecidableEq

/-- Construction of the MessageData wrapper from a decoded line. -/
def mkMessageData (m : ParsedMessage) : MessageData :=
  { tags := m.tags, sender := m.sender, params := m.params, raw := m.raw }

/-- The acting user attached to join and part events. -/
inductive UserOrClientUser where
  | other (u : User)
  | client (u : ClientUser)
deriving Repr, DecidableEq

/-- The events the client emits. -/
inductive Event where
  | ping
  | connected
  | disconnected (willReconnect : Bool) (hadError : Bool)
  | error
  | message (data : MessageData)
  | join (channel : Option Channel) (user : UserOrClientUser)
  | part (channel : Option Channel) (user : UserOrClientUser)
  | globaluserstate (user : ClientUser)
  | userstate (state : UserState)
  | roomstate (data : MessageData)
  | unhandledCommand (data : MessageData)
deriving Repr, DecidableEq

/-- The identity option: name and auth token, either possibly absent. -/
structure Identity where
  name : Option String
  auth : Option String
deriving Repr, DecidableEq

/-- Connection details: host and port, fixed at construction. -/
structure Connection where
  host : String
  port : Nat
deriving Repr, DecidableEq

/-- The mutable session state: the fields of class Client, plus the
allocation counter that models JavaScript object identity. -/
structure ClientState where
  optionsIdentity : Option Identity
  connection : Connection
  user : Option ClientUser
  channels : List (Option String × Option Channel)
  nextId : Nat
deriving Repr, DecidableEq

/-- A synchronous JavaScript fault (TypeError) thrown from the dispatch
path: dereference of the null authenticated user, of an absent message
sender, or of the absent identity options. -/
inductive Fault where
  | nullUser
  | nullSender
  | nullIdentity
deriving Repr, DecidableEq

/-- Result of processing one inbound line or socket event: the state after
all mutations that happened before a possible throw, the raw socket writes
performed (CRLF included), the events emitted, and the propagated fault. -/
structure DispatchResult where
  state : ClientState
  writes : List String
  events : List Event
  fault : Option Fault
deriving Repr, DecidableEq

def defaultTMIHost : String := "irc.chat.twitch.tv"

def defaultTMIPort : Nat := 6697

def noopIRCCommands : List String :=
  ["CAP", "002", "003", "004", "353", "366", "375", "372", "376"]

/-- The Client constructor: empty channel map, null user, connection details
from the options with documented defaults. -/
def mkClient (identityOpt : Option Identity) (hostOpt : Option String)
    (portOpt : Option Nat) : ClientState :=
  { optionsIdentity := identityOpt
  , connection :=
      { host := hostOpt.getD defaultTMIHost, port := portOpt.getD defaultTMIPort }
  , user := none
  , channels := []
  , nextId := 0 }

/-- JS template-literal rendering of a possibly absent (null) string. -/
def jsString : Option String → String
  | some s => s
  | none => "null"

/-- The jtv service pseudo-user check of _handleMessage. -/
def isJTV : Option Sender → Bool
  | some pre => decide (pre.user = some "jtv")
  | none => false

/-- JS strict equality between the decoded sender name (undefined when
absent) and the authenticated login (null when absent): two differently
absent values never compare equal under strict equality. -/
def senderNameEq : Option String → Option String → Bool
  | some a, some b => decide (a = b)
  | _, _ => false

/-- The isSelf computation of _handleMessage for a message whose sender is
present. -/
def isSelfOf (u : Option ClientUser) (pre : Sender) : Bool :=
  match u with
  | some cu => senderNameEq pre.name cu.login
  | none => false

/-- Channel resolution in _handleMessage: the first parameter, when truthy,
is the channel name; reuse the stored Channel when the map holds one,
otherwise construct a fresh instance (allocating a new object id).  Returns
the resolved channel and the allocation counter after resolution. -/
def resolveChannel (c : ClientState) (channelName : Option String) (tags : Tags) :
    Option Channel × Nat :=
  match channelName with
  | none => (none, c.nextId)
  | some n =>
      if n = "" then (none, c.nextId)
      else
        match lookupKey c.channels (some n) with
        | some (some ch) => (some ch, c.nextId)
        | _ => (some { id := c.nextId, name := some n, tags := tags }, c.nextId + 1)

/-- The command branches of _handleMessage from PRIVMSG downwards, after the
MessageData construction, channel resolution and isSelf computation. -/
def dispatchCore (c : ClientState) (pd : ParsedMessage) (data : MessageData)
    (channelName : Option String) (channel : Option Channel) (nid : Nat)
    (isSelf : Bool) : DispatchResult :=
  if pd.command = "PRIVMSG" then
    { state := { c with nextId := nid }, writes := []
    , events := [Event.message data], fault := none }
  else if pd.command = "JOIN" then
    let channels' := setKey c.channels channelName channel
    if isSelf then
      match c.user with
      | some u =>
          { state := { c with channels := channels', nextId := nid }, writes := []
          , events := [Event.join channel (UserOrClientUser.client u)], fault := none }
      | none =>
          -- unreachable: isSelf is true only when this.user is set
          { state := { c with channels := channels', nextId := nid }, writes := []
          , events := [], fault := some Fault.nullUser }
    else
      match pd.sender with
      | some pre =>
          { state := { c with channels := channels', nextId := nid + 1 }, writes := []
          , events := [Event.join channel (UserOrClientUser.other
              { id := nid, login := pre.name, tags := pd.tags, channel := channel })]
          , fault := none }
      | none =>
          -- the User constructor call dereferences the absent sender, after
          -- the channel map entry was already stored
          { state := { c with channels := channels', nextId := nid }, writes := []
          , events := [], fault := some Fault.nullSender }
  else if pd.command = "PART" then
    let channels' := delKey c.channels channelName
    match c.user with
    | none =>
        -- this.user.states.delete dereferences the null user, after the
        -- channel map entry was already deleted
        { state := { c with channels := channels', nextId := nid }, writes := []
        , events := [], fault := some Fault.nullUser }
    | some u =>
        let u' : ClientUser := { u with states := delKey u.states channelName }
        let rc2 : Option Channel × Nat :=
          match channel with
          | some ch => (some ch, nid)
          | none => (some { id := nid, name := channelName, tags := pd.tags }, nid + 1)
        if isSelf then
          { state := { c with channels := channels', user := some u', nextId := rc2.2 }
          , writes := []
          , events := [Event.part rc2.1 (UserOrClientUser.client u')], fault := none }
        else
          match pd.sender with
          | some pre =>
              { state :=
                  { c with channels := channels', user := some u', nextId := rc2.2 + 1 }
              , writes := []
              , events := [Event.part rc2.1 (UserOrClientUser.other
                  { id := rc2.2, login := pre.name, tags := pd.tags, channel := rc2.1 })]
              , fault := none }
          | none =>
              { state := { c with channels := channels', user := some u', nextId := rc2.2 }
              , writes := [], events := [], fault := some Fault.nullSender }
  else if pd.command = "GLOBALUSERSTATE" then
    let idName : Option String :=
      match c.optionsIdentity with
      | some idn => idn.name
      | none => none
    let newUser : ClientUser := { id := nid, login := idName, tags := pd.tags, states := [] }
    { state := { c with user := some newUser, nextId := nid + 1 }, writes := []
    , events := [Event.globaluserstate newUser], fault := none }
  else if pd.command = "USERSTATE" then
    match c.user with
    | none =>
        -- this.user.states.has dereferences the null user
        { state := { c with nextId := nid }, writes := [], events := []
        , fault := some Fault.nullUser }
    | some u =>
        match lookupKey u.states channelName with
        | some st =>
            let st' := UserState.update st pd.tags
            let u' : ClientUser := { u with states := setKey u.states channelName st' }
            { state := { c with user := some u', nextId := nid }, writes := []
            , events := [Event.userstate st'], fault := none }
        | none =>
            let st : UserState := { id := nid, tags := pd.tags, channel := channel }
            let u' : ClientUser := { u with states := setKey u.states channelName st }
            { state := { c with user := some u', nextId := nid + 1 }, writes := []
            , events := [Event.userstate st], fault := none }
  else if pd.command = "ROOMSTATE" then
    { state := { c with nextId := nid }, writes := []
    , events := [Event.roomstate data], fault := none }
  else
    { state := { c with nextId := nid }, writes := []
    , events := [Event.unhandledCommand data], fault := none }

/-- _handleMessage: dispatch of a single decoded line. -/
def handleMessage (c : ClientState) (pd : ParsedMessage) : DispatchResult :=
  if pd.command = "PING" then
    { state := c, writes := ["PONG :tmi.twitch.tv\r\n"]
    , events := [Event.ping], fault := none }
  else if isJTV pd.sender then
    -- diagnostic console output only, no state change and no event
    { state := c, writes := [], events := [], fault := none }
  else if pd.command = "001" then
    match c.optionsIdentity with
    | none =>
        { state := { c with optionsIdentity := some { name := pd.params.head?, auth := none } }
        , writes := [], events := [], fault := none }
    | some idn =>
        { state := { c with optionsIdentity := some { idn with name := pd.params.head? } }
        , writes := [], events := [], fault := none }
  else if pd.command ∈ noopIRCCommands then
    { state := c, writes := [], events := [], fault := none }
  else
    let rc := resolveChannel c pd.params.head? pd.tags
    match c.user, pd.sender with
    | some _, none =>
        -- the isSelf computation dereferences the absent sender
        { state := { c with nextId := rc.2 }, writes := [], events := []
        , fault := some Fault.nullSender }
    | some u, some pre =>
        dispatchCore c pd (mkMessageData pd) pd.params.head? rc.1 rc.2
          (senderNameEq pre.name u.login)
    | none, _ =>
        dispatchCore c pd (mkMessageData pd) pd.params.head? rc.1 rc.2 false

/-- The single handshake write _onConnect performs: the three commands
joined with CRLF by sendRawArray, the final CRLF appended by sendRaw. -/
def handshakeWrite (idName auth : String) : String :=
  "CAP REQ :twitch.tv/tags twitch.tv/commands\r\nPASS oauth:" ++ auth ++
    "\r\nNICK " ++ idName ++ "\r\n"

/-- _onConnect: read the identity (a TypeError when none is configured),
send the capability and auth handshake as one write, then emit connected. -/
def onConnect (c : ClientState) : DispatchResult :=
  match c.optionsIdentity with
  | none =>
      { state := c, writes := [], events := [], fault := some Fault.nullIdentity }
  | some idn =>
      { state := c
      , writes := [handshakeWrite (jsString idn.name) (jsString idn.auth)]
      , events := [Event.connected], fault := none }

/-- Socket lifecycle events delivered to the handlers connect registers;
data is delivered here as decoded lines (the external codec and the line
splitting of _onData sit between the byte stream and dispatch). -/
inductive SocketEvent where
  | secureConnect
  | dataLine (pd : ParsedMessage)
  | closeEv (hadError : Bool)
  | errorEv
deriving Repr, DecidableEq

/-- One socket event handled by the registered listeners: _onConnect,
_handleMessage via _onData, _onClose (willReconnect is always false),
_onError. -/
def stepSocket (c : ClientState) (e : SocketEvent) : DispatchResult :=
  match e with
  | SocketEvent.secureConnect => onConnect c
  | SocketEvent.dataLine pd => handleMessage c pd
  | SocketEvent.closeEv hadError =>
      { state := c, writes := []
      , events := [Event.disconnected false hadError], fault := none }
  | SocketEvent.errorEv =>
      { state := c, writes := [], events := [Event.error], fault := none }

/-- Process socket events in order; a fault thrown from a handler is
unhandled and stops the session. -/
def runSocket (c : ClientState) : List SocketEvent → DispatchResult
  | [] => { state := c, writes := [], events := [], fault := none }
  | e :: rest =>
      let r := stepSocket c e
      match r.fault with
      | some f => { state := r.state, writes := r.writes, events := r.events, fault := some f }
      | none =>
          let r' := runSocket r.state rest
          { state := r'.state, writes := r.writes ++ r'.writes
          , events := r.events ++ r'.events, fault := r'.fault }

/-- The possible observable settlement of a returned promise. -/
inductive PromiseOutcome where
  | resolvedImmediately
  | pending
  | rejected
deriving Repr, DecidableEq

/-- What connect() does synchronously: open the socket to the configured
host and port, register the four handlers, and return a promise. -/
structure ConnectResult where
  state : ClientState
  connectHost : String
  connectPort : Nat
  handlers : List String
  promise : PromiseOutcome
deriving Repr, DecidableEq

/-- connect(): initiate the TLS connection, register the secureConnect,
close, error and data handlers, and return Promise.resolve(). -/
def connect (c : ClientState) : ConnectResult :=
  { state := c
  , connectHost := c.connection.host
  , connectPort := c.connection.port
  , handlers := ["secureConnect", "close", "error", "data"]
  , promise := PromiseOutcome.resolvedImmediately }

/-- Modelled from the spec: the codec's encode with command, middle and
trailing (tekko.format): command and middle parameters space-separated, the
trailing parameter marked with a colon. -/
def formatIRC (command : String) (middle : List String) (trailing : Option String) :
    String :=
  match trailing with
  | some t => String.intercalate " " (command :: middle) ++ " :" ++ t
  | none => String.intercalate " " (command :: middle)

/-- Modelled from the spec: the codec's encode with a params list, split as
middle parameters plus a trailing last parameter. -/
def formatIRCParams (command : String) (ps : List String) : String :=
  formatIRC command ps.dropLast ps.getLast?

/-- A channel argument of the outbound builders: a name or a Channel, whose
toString is its name. -/
inductive ChannelArg where
  | byName (s : String)
  | byChannel (ch : Channel)
deriving Repr, DecidableEq

/-- The toString applied to a channel argument. -/
def ChannelArg.asString : ChannelArg → String
  | ChannelArg.byName s => s
  | ChannelArg.byChannel ch => ch.name.getD ""

/-- The params argument of sendCommand: a single string or an array. -/
inductive ParamsArg where
  | one (s : String)
  | many (l : List String)
deriving Repr, DecidableEq

/-- sendCommand: format a PRIVMSG whose trailing text is the slash marker,
the command word and the space-joined params, and send it.  The returned
list is the raw writes performed, CRLF appended by sendRaw. -/
def sendCommand (channel : ChannelArg) (command : String) (params : ParamsArg) :
    List String :=
  let commandParams :=
    match params with
    | ParamsArg.many l => String.intercalate " " l
    | ParamsArg.one s => s
  [formatIRC "PRIVMSG" [channel.asString]
      (some ("/" ++ command ++ " " ++ commandParams)) ++ "\r\n"]

/-- say: format a PRIVMSG from the params list channel-then-message and
send it. -/
def say (channel : ChannelArg) (message : String) : List String :=
  [formatIRCParams "PRIVMSG" [channel.asString, message] ++ "\r\n"]

/-- The commands _handleMessage settles before constructing MessageData:
PING, the welcome numeric, and the noop set. -/
def earlyCommands : List String :=
  ["PING", "001", "CAP", "002", "003", "004", "353", "366", "375", "372", "376"]

/-- The commands with a dedicated branch in _handleMessage after the
MessageData construction. -/
def handledCommands : List String :=
  ["PRIVMSG", "JOIN", "PART", "GLOBALUSERSTATE", "USERSTATE", "ROOMSTATE"]

/-- The channel payload of a join event, none for any other event. -/
def joinChannelOf : Event → Option (Option Channel)
  | Event.join ch _ => some ch
  | _ => none

/-- The per-channel state map of the authenticated user, empty when no
authenticated user is established. -/
def statesOf (s : ClientState) : List (Option String × UserState) :=
  match s.user with
  | some u => u.states
  | none => []

/-- The UserState a USERSTATE message for an unseen channel constructs:
fresh id, the message tags, the resolved channel. -/
def userstateNew (s : ClientState) (m : ParsedMessage) : UserState :=
  { id := (resolveChannel s m.params.head? m.tags).2
  , tags := m.tags
  , channel := (resolveChannel s m.params.head? m.tags).1 }

/-- The ClientUser a GLOBALUSERSTATE message constructs: fresh id, the
current identity name (null when the identity is absent), the message tags,
an empty per-channel state map. -/
def clientUserNew (s : ClientState) (m : ParsedMessage) : ClientUser :=
  { id := (resolveChannel s m.params.head? m.tags).2
  , login := s.optionsIdentity.bind Identity.name
  , tags := m.tags
  , states := [] }

/-- A PING line as decoded by the codec. -/
def pingLine : ParsedMessage :=
  { tags := [], sender := none, command := "PING", params := ["tmi.twitch.tv"]
  , raw := "PING :tmi.twitch.tv" }

/-- A freshly constructed client with no identity configured. -/
def freshClient : ClientState := mkClient none none none

/-- A USERSTATE line for a channel, with the server sender. -/
def userstateLine : ParsedMessage :=
  { tags := [("mod", "0")]
  , sender := some { name := some "tmi.twitch.tv", user := none, host := none }
  , command := "USERSTATE", params := ["#channel"]
  , raw := "@mod=0 :tmi.twitch.tv USERSTATE #channel" }

/-- A PART line for a channel from another user. -/
def partLine : ParsedMessage :=
  { tags := []
  , sender := some { name := some "alice", user := some "alice"
                   , host := some "alice.tmi.twitch.tv" }
  , command := "PART", params := ["#channel"]
  , raw := ":alice!alice@alice.tmi.twitch.tv PART #channel" }

/-- A JOIN line for a channel from another user. -/
def joinLine : ParsedMessage :=
  { tags := []
  , sender := some { name := some "alice", user := some "alice"
                   , host := some "alice.tmi.twitch.tv" }
  , command := "JOIN", params := ["#channel"]
  , raw := ":alice!alice@alice.tmi.twitch.tv JOIN #channel" }

/-- A GLOBALUSERSTATE line with no sender recorded. -/
def gusLine : ParsedMessage :=
  { tags := [], sender := none, command := "GLOBALUSERSTATE", params := []
  , raw := "GLOBALUSERSTATE" }

/-- An unrecognized command line carrying no sender. -/
def whisperNoSenderLine : ParsedMessage :=
  { tags := [], sender := none, command := "WHISPER", params := ["#channel", "hi"]
  , raw := "WHISPER #channel hi" }

/-- The session state after the client received GLOBALUSERSTATE on a fresh
session: an authenticated user is established. -/
def afterGusState : ClientState := (handleMessage freshClient gusLine).state

/-- The session state of the channel-instance run: GLOBALUSERSTATE, then
USERSTATE for a channel never joined, then JOIN for that same channel. -/
def channelRunState : ClientState :=
  (handleMessage (handleMessage afterGusState userstateLine).state joinLine).state

/-- The session state after the fresh client dispatched a JOIN for
channel #channel. -/
def joinedState : ClientState := (handleMessage freshClient joinLine).state

/-- A session state that already has an authenticated user, before a second
GLOBALUSERSTATE arrives. -/
def preGusState : ClientState :=
  { optionsIdentity := some { name := some "me", auth := some "tok" }
  , connection := { host := defaultTMIHost, port := defaultTMIPort }
  , user := some { id := 0, login := some "me", tags := [], states := [] }
  , channels := []
  , nextId := 1 }

/-- A GLOBALUSERSTATE line as the server sends it, with its sender. -/
def gusServerLine : ParsedMessage :=
  { tags := [("color", "#FF0000")]
  , sender := some { name := some "tmi.twitch.tv", user := none, host := none }
  , command := "GLOBALUSERSTATE", params := []
  , raw := ":tmi.twitch.tv GLOBALUSERSTATE" }

/-- The session state after GLOBALUSERSTATE and one USERSTATE for #channel
on a fresh client. -/
def afterFirstUserstate : ClientState := (handleMessage afterGusState userstateLine).state

/-- A second USERSTATE line for #channel carrying a different tag key. -/
def userstateLine2 : ParsedMessage :=
  { tags := [("badge", "sub")]
  , sender := some { name := some "tmi.twitch.tv", user := none, host := none }
  , command := "USERSTATE", params := ["#channel"]
  , raw := "@badge=sub :tmi.twitch.tv USERSTATE #channel" }

/-- The UserState stored for #channel after the first USERSTATE. -/
def storedUserState : UserState :=
  { id := 2, tags := [("mod", "0")]
  , channel := some { id := 1, name := some "#channel", tags := [("mod", "0")] } }

/-- The stored channel instance after the first JOIN of #channel. -/
def firstJoinChannel : Channel := { id := 0, name := some "#channel", tags := [] }

/-- A client constructed with an identity configured. -/
def identifiedClient : ClientState :=
  mkClient (some { name := some "me", auth := some "tok" }) none none

/-- Looking up the key just set returns the value just set. -/
theorem lookupKey_setKey_self {α β : Type} [DecidableEq α]
    (m : List (α × β)) (k : α) (v : β) :
    lookupKey (setKey m k v) k = some v := by
  induction m with
  | nil => simp [setKey, lookupKey]
  | cons p rest ih =>
      obtain ⟨k1, v1⟩ := p
      by_cases h : k1 = k
      · simp [setKey, h, lookupKey]
      · simp [setKey, h, lookupKey, ih]

/-- Setting one key leaves lookups of other keys unchanged. -/
theorem lookupKey_setKey_ne {α β : Type} [DecidableEq α]
    (m : List (α × β)) (k k' : α) (v : β) (h : k ≠ k') :
    lookupKey (setKey m k v) k' = lookupKey m k' := by
  induction m with
  | nil => simp [setKey, lookupKey, h]
  | cons p rest ih =>
      obtain ⟨k1, v1⟩ := p
      by_cases hk : k1 = k
      · subst hk
        simp [setKey, lookupKey, h]
      · simp [setKey, hk, lookupKey, ih]

/-- Looking up a deleted key returns nothing. -/
theorem lookupKey_delKey_self {α β : Type} [DecidableEq α]
    (m : List (α × β)) (k : α) :
    lookupKey (delKey m k) k = none := by
  induction m with
  | nil => rfl
  | cons p rest ih =>
      obtain ⟨k1, v1⟩ := p
      by_cases h : k1 = k
      · simpa [delKey, List.filter_cons, h] using ih
      · simpa [delKey, List.filter_cons, h, lookupKey] using ih

/-- A key that looks up to nothing has no entries. -/
theorem countKey_eq_zero {α β : Type} [DecidableEq α]
    (m : List (α × β)) (k : α) (h : lookupKey m k = none) :
    countKey m k = 0 := by
  induction m with
  | nil => rfl
  | cons p rest ih =>
      obtain ⟨k1, v1⟩ := p
      by_cases hk : k1 = k
      · simp [lookupKey, hk] at h
      · simp [lookupKey, hk] at h
        simpa [countKey, List.filter_cons, hk] using ih h

/-- Counting over a cons whose head has the counted key. -/
theorem countKey_cons_self {α β : Type} [DecidableEq α]
    (rest : List (α × β)) (k : α) (v : β) :
    countKey ((k, v) :: rest) k = countKey rest k + 1 := by
  simp [countKey, List.filter_cons]

/-- Counting over a cons whose head has another key. -/
theorem countKey_cons_ne {α β : Type} [DecidableEq α]
    (rest : List (α × β)) (k1 k : α) (v : β) (h : k1 ≠ k) :
    countKey ((k1, v) :: rest) k = countKey rest k := by
  simp [countKey, List.filter_cons, h]

/-- Setting a key in a map that held at most one entry for it leaves exactly
one entry for it. -/
theorem countKey_setKey_self {α β : Type} [DecidableEq α]
    (m : List (α × β)) (k : α) (v : β) (h : countKey m k ≤ 1) :
    countKey (setKey m k v) k = 1 := by
  induction m with
  | nil => simp [setKey, countKey]
  | cons p rest ih =>
      obtain ⟨k1, v1⟩ := p
      by_cases hk : k1 = k
      · subst hk
        rw [countKey_cons_self] at h
        have h0 : countKey rest k1 = 0 := by omega
        rw [setKey, if_pos rfl, countKey_cons_self, h0]
      · rw [countKey_cons_ne rest k1 k v1 hk] at h
        rw [setKey, if_neg hk, countKey_cons_ne _ k1 k v1 hk]
        exact ih h

/-- Merging a cons unfolds to merging the tail into the updated map. -/
theorem merge_cons (old : Tags) (p : String × String) (rest : Tags) :
    Tags.merge old (p :: rest) = Tags.merge (setKey old p.1 p.2) rest := rfl

/-- Keys absent from the incoming tags look up in a merge exactly as they
did before the merge: old tags survive. -/
theorem lookup_merge_not_mem (incoming : Tags) (old : Tags) (k : String)
    (h : ∀ p ∈ incoming, p.1 ≠ k) :
    lookupKey (Tags.merge old incoming) k = lookupKey old k := by
  induction incoming generalizing old with
  | nil => rfl
  | cons p rest ih =>
      rw [merge_cons, ih _ (fun q hq => h q (List.mem_cons_of_mem _ hq))]
      exact lookupKey_setKey_ne _ _ _ _ (h p (List.mem_cons_self _ _))

/-- Keys present in the incoming tags look up in a merge to their incoming
value: incoming tags overwrite. -/
theorem lookup_merge_mem (incoming : Tags) (old : Tags) (k v : String)
    (hnd : (incoming.map Prod.fst).Nodup) (h : lookupKey incoming k = some v) :
    lookupKey (Tags.merge old incoming) k = some v := by
  induction incoming generalizing old with
  | nil => cases h
  | cons p rest ih =>
      obtain ⟨k1, v1⟩ := p
      rw [merge_cons]
      simp only [List.map_cons, List.nodup_cons] at hnd
      by_cases hk : k1 = k
      · subst hk
        have hv : v1 = v := by simpa [lookupKey] using h
        subst hv
        have hnot : ∀ q ∈ rest, q.1 ≠ k1 := by
          intro q hq he
          exact hnd.1 (he ▸ List.mem_map_of_mem Prod.fst hq)
        rw [lookup_merge_not_mem rest _ k1 hnot]
        exact lookupKey_setKey_self _ _ _
      · have h' : lookupKey rest k = some v := by simpa [lookupKey, hk] using h
        exact ih _ hnd.2 h'

/-- Channel resolution never decreases the allocation counter. -/
theorem resolveChannel_le (c : ClientState) (cn : Option String) (tags : Tags) :
    c.nextId ≤ (resolveChannel c cn tags).2 := by
  unfold resolveChannel
  rcases cn with _ | n
  · exact Nat.le_refl _
  · dsimp only
    split
    · exact Nat.le_refl _
    · split
      · exact Nat.le_refl _
      · exact Nat.le_succ _

/-- After the PING, jtv, welcome and noop checks, _handleMessage constructs
the MessageData, resolves the channel, computes isSelf from the present
sender and dispatches on the command. -/
theorem handleMessage_eq_core (s : ClientState) (m : ParsedMessage) (pre : Sender)
    (h1 : m.command ∉ earlyCommands)
    (h2 : m.sender = some pre) (h3 : pre.user ≠ some "jtv") :
    handleMessage s m =
      dispatchCore s m (mkMessageData m) m.params.head?
        (resolveChannel s m.params.head? m.tags).1
        (resolveChannel s m.params.head? m.tags).2
        (isSelfOf s.user pre) := by
  simp only [earlyCommands, List.mem_cons, List.mem_singleton, not_or] at h1
  have hping : ¬ m.command = "PING" := h1.1
  have h001 : ¬ m.command = "001" := h1.2.1
  have hjtv : ¬ (isJTV m.sender = true) := by
    rw [h2]
    simp [isJTV, h3]
  have hnoop' : m.command ∉ noopIRCCommands := by
    simp only [noopIRCCommands, List.mem_cons, List.mem_singleton, not_or]
    tauto
  unfold handleMessage
  rw [if_neg hping, if_neg hjtv, if_neg h001, if_neg hnoop']
  rw [h2]
  cases s.user with
  | none => rfl
  | some u => rfl

/-- After the PING, jtv, welcome and noop checks, _handleMessage with no
authenticated user established dispatches on the command with isSelf false,
whether or not the line carries a sender: the isSelf computation
short-circuits on the null user before touching the sender. -/
theorem handleMessage_eq_core_noUser (s : ClientState) (m : ParsedMessage)
    (h1 : m.command ∉ earlyCommands)
    (h2 : isJTV m.sender = false)
    (hu : s.user = none) :
    handleMessage s m =
      dispatchCore s m (mkMessageData m) m.params.head?
        (resolveChannel s m.params.head? m.tags).1
        (resolveChannel s m.params.head? m.tags).2
        false := by
  simp only [earlyCommands, List.mem_cons, List.mem_singleton, not_or] at h1
  have hping : ¬ m.command = "PING" := h1.1
  have h001 : ¬ m.command = "001" := h1.2.1
  have hjtv : ¬ (isJTV m.sender = true) := by
    rw [h2]
    simp
  have hnoop' : m.command ∉ noopIRCCommands := by
    simp only [noopIRCCommands, List.mem_cons, List.mem_singleton, not_or]
    tauto
  unfold handleMessage
  rw [if_neg hping, if_neg hjtv, if_neg h001, if_neg hnoop', hu]

/-- Claim C6: a decoded line whose command token is PING produces exactly
one write, PONG with the CRLF terminator, exactly one ping event, no fault,
and leaves the session state unchanged. -/
theorem tmi_c6_ping (s : ClientState) (m : ParsedMessage) (h : m.command = "PING") :
    handleMessage s m =
      { state := s, writes := ["PONG :tmi.twitch.tv\r\n"]
      , events := [Event.ping], fault := none } := by
  unfold handleMessage
  rw [if_pos h]

/-- Witness for C6: the scenario line PING :tmi.twitch.tv on a fresh client. -/
theorem tmi_c6_witness :
    handleMessage freshClient pingLine =
      { state := freshClient, writes := ["PONG :tmi.twitch.tv\r\n"]
      , events := [Event.ping], fault := none } :=
  tmi_c6_ping freshClient pingLine rfl

/-- On a JOIN, the channel map afterwards is the old map with the resolved
channel stored under the channel name, in every self and sender case. -/
theorem dispatchCore_join_channels (c : ClientState) (pd : ParsedMessage)
    (data : MessageData) (cn : Option String) (ch : Option Channel) (nid : Nat)
    (self : Bool) (h : pd.command = "JOIN") :
    (dispatchCore c pd data cn ch nid self).state.channels = setKey c.channels cn ch := by
  unfold dispatchCore
  rw [h, if_neg (by decide), if_pos rfl]
  cases self
  · cases pd.sender <;> rfl
  · cases c.user <;> rfl

/-- On a PART, the channel map afterwards is the old map with the channel
name deleted, in every user, self and sender case (the deletion happens
before the null-user dereference). -/
theorem dispatchCore_part_channels (c : ClientState) (pd : ParsedMessage)
    (data : MessageData) (cn : Option String) (ch : Option Channel) (nid : Nat)
    (self : Bool) (h : pd.command = "PART") :
    (dispatchCore c pd data cn ch nid self).state.channels = delKey c.channels cn := by
  unfold dispatchCore
  rw [h, if_neg (by decide), if_neg (by decide), if_pos rfl]
  cases c.user
  · rfl
  · cases self
    · cases pd.sender <;> rfl
    · rfl

/-- On a GLOBALUSERSTATE, dispatch constructs a fresh ClientUser from the
current identity name and the message tags, stores it as the authenticated
user and emits the globaluserstate event carrying it. -/
theorem dispatchCore_gus (c : ClientState) (pd : ParsedMessage)
    (data : MessageData) (cn : Option String) (ch : Option Channel) (nid : Nat)
    (self : Bool) (h : pd.command = "GLOBALUSERSTATE") :
    dispatchCore c pd data cn ch nid self =
      { state :=
          { c with
            user := some { id := nid, login := c.optionsIdentity.bind Identity.name
                         , tags := pd.tags, states := [] }
          , nextId := nid + 1 }
      , writes := []
      , events := [Event.globaluserstate
          { id := nid, login := c.optionsIdentity.bind Identity.name
          , tags := pd.tags, states := [] }]
      , fault := none } := by
  unfold dispatchCore
  rw [h, if_neg (by decide), if_neg (by decide), if_neg (by decide), if_pos rfl]
  cases c.optionsIdentity <;> rfl

/-- The channel resolved for a truthy channel name is an actual Channel. -/
theorem resolveChannel_isSome (c : ClientState) (C : String) (tags : Tags)
    (hC : C ≠ "") :
    ((resolveChannel c (some C) tags).1).isSome = true := by
  unfold resolveChannel
  dsimp only
  rw [if_neg hC]
  split <;> rfl

/-- Claim C2: a JOIN for channel name C leaves exactly one entry keyed C in
the channel map, holding an actual Channel, and a subsequent PART for the
same C, from any session state, leaves the key C absent from the map. -/
theorem tmi_c2_join_part (s s2 : ClientState) (mJ mP : ParsedMessage) (C : String)
    (preJ preP : Sender)
    (hC : C ≠ "")
    (hwf : countKey s.channels (some C) ≤ 1)
    (hJ1 : mJ.command = "JOIN") (hJ2 : mJ.params.head? = some C)
    (hJ3 : mJ.sender = some preJ) (hJ4 : preJ.user ≠ some "jtv")
    (hP1 : mP.command = "PART") (hP2 : mP.params.head? = some C)
    (hP3 : mP.sender = some preP) (hP4 : preP.user ≠ some "jtv") :
    countKey (handleMessage s mJ).state.channels (some C) = 1 ∧
    lookupKey (handleMessage s mJ).state.channels (some C) =
        some (resolveChannel s (some C) mJ.tags).1 ∧
    ((resolveChannel s (some C) mJ.tags).1).isSome = true ∧
    lookupKey (handleMessage s2 mP).state.channels (some C) = none := by
  refine ⟨?_, ?_, resolveChannel_isSome s C mJ.tags hC, ?_⟩
  · rw [handleMessage_eq_core s mJ preJ (by rw [hJ1]; decide) hJ3 hJ4]
    rw [dispatchCore_join_channels _ _ _ _ _ _ _ hJ1, hJ2]
    exact countKey_setKey_self _ _ _ hwf
  · rw [handleMessage_eq_core s mJ preJ (by rw [hJ1]; decide) hJ3 hJ4]
    rw [dispatchCore_join_channels _ _ _ _ _ _ _ hJ1, hJ2]
    exact lookupKey_setKey_self _ _ _
  · rw [handleMessage_eq_core s2 mP preP (by rw [hP1]; decide) hP3 hP4]
    rw [dispatchCore_part_channels _ _ _ _ _ _ _ hP1, hP2]
    exact lookupKey_delKey_self _ _

/-- Witness for C2: JOIN then PART of #channel on a fresh client. -/
theorem tmi_c2_witness :
    countKey (handleMessage freshClient joinLine).state.channels (some "#channel") = 1 ∧
    lookupKey (handleMessage freshClient joinLine).state.channels (some "#channel") =
        some (resolveChannel freshClient (some "#channel") joinLine.tags).1 ∧
    ((resolveChannel freshClient (some "#channel") joinLine.tags).1).isSome = true ∧
    lookupKey (handleMessage joinedState partLine).state.channels (some "#channel") = none :=
  tmi_c2_join_part freshClient joinedState joinLine partLine "#channel"
    { name := some "alice", user := some "alice", host := some "alice.tmi.twitch.tv" }
    { name := some "alice", user := some "alice", host := some "alice.tmi.twitch.tv" }
    (by decide) (by decide) rfl rfl rfl (by decide) rfl rfl rfl (by decide)

/-- Claim C4 (amended precision only by message well-formedness): a
GLOBALUSERSTATE message constructs a fresh ClientUser from the current
identity name, null when the identity is absent, and the message tags,
stores it as the authenticated user, never identical to any prior instance,
and emits the globaluserstate event carrying the new user. -/
theorem tmi_c4_globaluserstate (s : ClientState) (m : ParsedMessage) (pre : Sender)
    (h1 : m.command = "GLOBALUSERSTATE") (h2 : m.sender = some pre)
    (h3 : pre.user ≠ some "jtv")
    (hfresh : ∀ u0, s.user = some u0 → u0.id < s.nextId) :
    (handleMessage s m).state.user = some (clientUserNew s m) ∧
    (clientUserNew s m).login = s.optionsIdentity.bind Identity.name ∧
    (clientUserNew s m).tags = m.tags ∧
    (handleMessage s m).events = [Event.globaluserstate (clientUserNew s m)] ∧
    (handleMessage s m).state.user ≠ s.user := by
  rw [handleMessage_eq_core s m pre (by rw [h1]; decide) h2 h3]
  rw [dispatchCore_gus _ _ _ _ _ _ _ h1]
  refine ⟨rfl, rfl, rfl, rfl, ?_⟩
  cases hu : s.user with
  | none => simp
  | some u0 =>
      intro he
      have hinj : clientUserNew s m = u0 := by
        have := Option.some.inj he
        exact this
      have hlt := hfresh u0 hu
      have hge := resolveChannel_le s m.params.head? m.tags
      have hid : (clientUserNew s m).id = (resolveChannel s m.params.head? m.tags).2 := rfl
      rw [← hinj] at hlt
      omega

/-- Witness for C4: a GLOBALUSERSTATE replacing an existing authenticated
user. -/
theorem tmi_c4_witness :
    (handleMessage preGusState gusServerLine).state.user =
        some (clientUserNew preGusState gusServerLine) ∧
    (clientUserNew preGusState gusServerLine).login =
        preGusState.optionsIdentity.bind Identity.name ∧
    (clientUserNew preGusState gusServerLine).tags = gusServerLine.tags ∧
    (handleMessage preGusState gusServerLine).events =
        [Event.globaluserstate (clientUserNew preGusState gusServerLine)] ∧
    (handleMessage preGusState gusServerLine).state.user ≠ preGusState.user :=
  tmi_c4_globaluserstate preGusState gusServerLine
    { name := some "tmi.twitch.tv", user := none, host := none }
    rfl rfl (by decide)
    (by
      intro u0 h0
      have h1 : ({ id := 0, login := some "me", tags := [], states := [] } : ClientUser) = u0 :=
        Option.some.inj h0
      rw [← h1]
      decide)

/-- A key that looks up to nothing heads no entry. -/
theorem not_mem_of_lookup_none {α β : Type} [DecidableEq α]
    (m : List (α × β)) (k : α) (h : lookupKey m k = none) :
    ∀ p ∈ m, p.1 ≠ k := by
  induction m with
  | nil => intro p hp; cases hp
  | cons q rest ih =>
      obtain ⟨k1, v1⟩ := q
      by_cases hk : k1 = k
      · simp [lookupKey, hk] at h
      · simp only [lookupKey, if_neg hk] at h
        intro p hp
        rcases List.mem_cons.mp hp with he | hm
        · rw [he]; exact hk
        · exact ih h p hm

/-- On a USERSTATE with an authenticated user and no stored state for the
channel, dispatch constructs a fresh UserState from the message tags and the
resolved channel, stores it under the channel name and emits it. -/
theorem dispatchCore_userstate_new (c : ClientState) (pd : ParsedMessage)
    (data : MessageData) (cn : Option String) (ch : Option Channel) (nid : Nat)
    (self : Bool) (h : pd.command = "USERSTATE") (u : ClientUser)
    (hu : c.user = some u) (hlk : lookupKey u.states cn = none) :
    dispatchCore c pd data cn ch nid self =
      { state :=
          { c with
            user := some
              { u with states := setKey u.states cn { id := nid, tags := pd.tags, channel := ch } },
            nextId := nid + 1 },
        writes := [],
        events := [Event.userstate { id := nid, tags := pd.tags, channel := ch }],
        fault := none } := by
  unfold dispatchCore
  rw [h, if_neg (by decide), if_neg (by decide), if_neg (by decide), if_neg (by decide),
    if_pos rfl, hu]
  dsimp only
  rw [hlk]

/-- On a USERSTATE with an authenticated user and a stored state for the
channel, dispatch merges the message tags into the stored state, keeps it
stored under the channel name and emits it. -/
theorem dispatchCore_userstate_update (c : ClientState) (pd : ParsedMessage)
    (data : MessageData) (cn : Option String) (ch : Option Channel) (nid : Nat)
    (self : Bool) (h : pd.command = "USERSTATE") (u : ClientUser) (st : UserState)
    (hu : c.user = some u) (hlk : lookupKey u.states cn = some st) :
    dispatchCore c pd data cn ch nid self =
      { state :=
          { c with
            user := some
              { u with states := setKey u.states cn (UserState.update st pd.tags) },
            nextId := nid },
        writes := [],
        events := [Event.userstate (UserState.update st pd.tags)],
        fault := none } := by
  unfold dispatchCore
  rw [h, if_neg (by decide), if_neg (by decide), if_neg (by decide), if_neg (by decide),
    if_pos rfl, hu]
  dsimp only
  rw [hlk]

/-- Claim C5: with an established authenticated user, a USERSTATE for an
unseen channel creates a UserState holding the message tags and stores it
under the channel name; a second USERSTATE for the same channel preserves
the stored instance's identity and merges the tags, old tags absent from
the incoming message surviving and incoming tags overwriting; the map holds
exactly one entry for the channel name throughout. -/
theorem tmi_c5_userstate (s1 s2 : ClientState) (m1 m2 : ParsedMessage) (C : String)
    (pre1 pre2 : Sender) (u1 u2 : ClientUser) (st : UserState) (k1 k2 v2 : String)
    (hC : C ≠ "")
    (h1cmd : m1.command = "USERSTATE") (h1p : m1.params.head? = some C)
    (h1pre : m1.sender = some pre1) (h1jtv : pre1.user ≠ some "jtv")
    (h1u : s1.user = some u1) (h1none : lookupKey u1.states (some C) = none)
    (h2cmd : m2.command = "USERSTATE") (h2p : m2.params.head? = some C)
    (h2pre : m2.sender = some pre2) (h2jtv : pre2.user ≠ some "jtv")
    (h2u : s2.user = some u2) (h2some : lookupKey u2.states (some C) = some st)
    (h2wf : countKey u2.states (some C) ≤ 1)
    (h2nodup : (m2.tags.map Prod.fst).Nodup) :
    lookupKey (statesOf (handleMessage s1 m1).state) (some C) = some (userstateNew s1 m1) ∧
    (userstateNew s1 m1).tags = m1.tags ∧
    ((userstateNew s1 m1).channel).isSome = true ∧
    countKey (statesOf (handleMessage s1 m1).state) (some C) = 1 ∧
    (handleMessage s1 m1).events = [Event.userstate (userstateNew s1 m1)] ∧
    lookupKey (statesOf (handleMessage s2 m2).state) (some C) =
        some (UserState.update st m2.tags) ∧
    (UserState.update st m2.tags).id = st.id ∧
    (UserState.update st m2.tags).channel = st.channel ∧
    countKey (statesOf (handleMessage s2 m2).state) (some C) = 1 ∧
    (handleMessage s2 m2).events = [Event.userstate (UserState.update st m2.tags)] ∧
    (lookupKey m2.tags k1 = none →
        lookupKey (UserState.update st m2.tags).tags k1 = lookupKey st.tags k1) ∧
    (lookupKey m2.tags k2 = some v2 →
        lookupKey (UserState.update st m2.tags).tags k2 = some v2) := by
  have e1 : handleMessage s1 m1 =
      { state :=
          { s1 with
            user := some
              { u1 with states := setKey u1.states m1.params.head? (userstateNew s1 m1) },
            nextId := (resolveChannel s1 m1.params.head? m1.tags).2 + 1 },
        writes := [],
        events := [Event.userstate (userstateNew s1 m1)],
        fault := none } := by
    rw [handleMessage_eq_core s1 m1 pre1 (by rw [h1cmd]; decide) h1pre h1jtv]
    exact dispatchCore_userstate_new _ _ _ _ _ _ _ h1cmd u1 h1u
      (by rw [h1p]; exact h1none)
  have e2 : handleMessage s2 m2 =
      { state :=
          { s2 with
            user := some
              { u2 with states := setKey u2.states m2.params.head? (UserState.update st m2.tags) },
            nextId := (resolveChannel s2 m2.params.head? m2.tags).2 },
        writes := [],
        events := [Event.userstate (UserState.update st m2.tags)],
        fault := none } := by
    rw [handleMessage_eq_core s2 m2 pre2 (by rw [h2cmd]; decide) h2pre h2jtv]
    exact dispatchCore_userstate_update _ _ _ _ _ _ _ h2cmd u2 st h2u
      (by rw [h2p]; exact h2some)
  have hcnt1 : countKey u1.states m1.params.head? ≤ 1 := by
    rw [h1p]
    rw [countKey_eq_zero u1.states (some C) h1none]
    omega
  have hcnt2 : countKey u2.states m2.params.head? ≤ 1 := by
    rw [h2p]; exact h2wf
  refine ⟨?_, rfl, ?_, ?_, ?_, ?_, rfl, rfl, ?_, ?_, ?_, ?_⟩
  · rw [e1, ← h1p]
    exact lookupKey_setKey_self _ _ _
  · show ((resolveChannel s1 m1.params.head? m1.tags).1).isSome = true
    rw [h1p]
    exact resolveChannel_isSome s1 C m1.tags hC
  · rw [e1, ← h1p]
    exact countKey_setKey_self _ _ _ hcnt1
  · rw [e1]
  · rw [e2, ← h2p]
    exact lookupKey_setKey_self _ _ _
  · rw [e2, ← h2p]
    exact countKey_setKey_self _ _ _ hcnt2
  · rw [e2]
  · intro hk
    show lookupKey (Tags.merge st.tags m2.tags) k1 = lookupKey st.tags k1
    exact lookup_merge_not_mem m2.tags st.tags k1 (not_mem_of_lookup_none m2.tags k1 hk)
  · intro hk
    show lookupKey (Tags.merge st.tags m2.tags) k2 = some v2
    exact lookup_merge_mem m2.tags st.tags k2 v2 h2nodup hk

/-- Witness for C5: two consecutive USERSTATE lines for #channel, the tag
mod surviving the second merge and the tag badge being written by it. -/
theorem tmi_c5_witness :
    lookupKey (statesOf (handleMessage afterGusState userstateLine).state) (some "#channel") =
        some (userstateNew afterGusState userstateLine) ∧
    (userstateNew afterGusState userstateLine).tags = userstateLine.tags ∧
    ((userstateNew afterGusState userstateLine).channel).isSome = true ∧
    countKey (statesOf (handleMessage afterGusState userstateLine).state) (some "#channel") = 1 ∧
    (handleMessage afterGusState userstateLine).events =
        [Event.userstate (userstateNew afterGusState userstateLine)] ∧
    lookupKey (statesOf (handleMessage afterFirstUserstate userstateLine2).state) (some "#channel") =
        some (UserState.update storedUserState userstateLine2.tags) ∧
    (UserState.update storedUserState userstateLine2.tags).id = storedUserState.id ∧
    (UserState.update storedUserState userstateLine2.tags).channel = storedUserState.channel ∧
    countKey (statesOf (handleMessage afterFirstUserstate userstateLine2).state) (some "#channel") = 1 ∧
    (handleMessage afterFirstUserstate userstateLine2).events =
        [Event.userstate (UserState.update storedUserState userstateLine2.tags)] ∧
    (lookupKey userstateLine2.tags "mod" = none →
        lookupKey (UserState.update storedUserState userstateLine2.tags).tags "mod" =
          lookupKey storedUserState.tags "mod") ∧
    (lookupKey userstateLine2.tags "badge" = some "sub" →
        lookupKey (UserState.update storedUserState userstateLine2.tags).tags "badge" =
          some "sub") :=
  tmi_c5_userstate afterGusState afterFirstUserstate userstateLine userstateLine2 "#channel"
    { name := some "tmi.twitch.tv", user := none, host := none }
    { name := some "tmi.twitch.tv", user := none, host := none }
    { id := 0, login := none, tags := [], states := [] }
    { id := 0, login := none, tags := []
    , states := [(some "#channel", storedUserState)] }
    storedUserState "mod" "badge" "sub"
    (by decide) rfl rfl rfl (by decide) rfl rfl
    rfl rfl rfl (by decide) rfl rfl (by decide) (by decide)

/-- Claim C3 counterexample: after GLOBALUSERSTATE, a USERSTATE for a never
joined channel, then a JOIN for that same channel, the session holds two
distinct live Channel instances for one name: the UserState's channel has
object id 1 while the channel map stores object id 3, both named #channel. -/
theorem tmi_c3_counterexample :
    ((channelRunState.user.bind (fun u => lookupKey u.states (some "#channel"))).bind
        UserState.channel).map Channel.id = some 1 ∧
    ((lookupKey channelRunState.channels (some "#channel")).bind (fun x => x)).map
        Channel.id = some 3 ∧
    ((channelRunState.user.bind (fun u => lookupKey u.states (some "#channel"))).bind
        UserState.channel).map Channel.name = some (some "#channel") ∧
    ((lookupKey channelRunState.channels (some "#channel")).bind (fun x => x)).map
        Channel.name = some (some "#channel") :=
  ⟨rfl, rfl, rfl, rfl⟩

/-- On a JOIN whose sender is present, dispatch emits exactly one join event
carrying the resolved channel, in every self case. -/
theorem dispatchCore_join_events (c : ClientState) (pd : ParsedMessage)
    (data : MessageData) (cn : Option String) (ch : Option Channel) (nid : Nat)
    (pre : Sender) (h : pd.command = "JOIN") (hs : pd.sender = some pre) :
    (dispatchCore c pd data cn ch nid (isSelfOf c.user pre)).events.map joinChannelOf =
      [some ch] := by
  unfold dispatchCore
  rw [h, if_neg (by decide), if_pos rfl]
  cases hu : c.user with
  | none => simp [isSelfOf, hs, joinChannelOf]
  | some u =>
      dsimp only [isSelfOf]
      cases hb : senderNameEq pre.name u.login
      · simp [hs, joinChannelOf]
      · simp [joinChannelOf]

/-- Claim C3 amended: when the channel map already stores a Channel for the
name a JOIN references, dispatch reuses that stored instance — the map entry
afterwards is the same instance, and the join event carries it — rather
than constructing a second instance. -/
theorem tmi_c3_reuse (s : ClientState) (m : ParsedMessage) (C : String) (ch : Channel)
    (pre : Sender)
    (hcmd : m.command = "JOIN") (hC : C ≠ "") (hp : m.params.head? = some C)
    (hpre : m.sender = some pre) (hjtv : pre.user ≠ some "jtv")
    (hstored : lookupKey s.channels (some C) = some (some ch)) :
    lookupKey (handleMessage s m).state.channels (some C) = some (some ch) ∧
    (handleMessage s m).events.map joinChannelOf = [some (some ch)] := by
  have hres : resolveChannel s m.params.head? m.tags = (some ch, s.nextId) := by
    rw [hp]
    unfold resolveChannel
    dsimp only
    rw [if_neg hC, hstored]
  rw [handleMessage_eq_core s m pre (by rw [hcmd]; decide) hpre hjtv]
  constructor
  · rw [dispatchCore_join_channels _ _ _ _ _ _ _ hcmd, hres, ← hp]
    exact lookupKey_setKey_self _ _ _
  · rw [hres]
    exact dispatchCore_join_events _ _ _ _ _ _ _ hcmd hpre

/-- Witness for the amended C3: a second JOIN for #channel keeps the stored
Channel instance and carries it on the join event. -/
theorem tmi_c3_witness :
    lookupKey (handleMessage joinedState joinLine).state.channels (some "#channel") =
        some (some firstJoinChannel) ∧
    (handleMessage joinedState joinLine).events.map joinChannelOf =
        [some (some firstJoinChannel)] :=
  tmi_c3_reuse joinedState joinLine "#channel" firstJoinChannel
    { name := some "alice", user := some "alice", host := some "alice.tmi.twitch.tv" }
    rfl (by decide) rfl rfl (by decide) rfl

/-- Claim C8 counterexample: with an authenticated user established, a
decoded line with an unrecognized command and no sender reaches neither the
unhandled-command emit nor any other event: dispatch faults at the isSelf
computation, so the line is dropped with a synchronous fault. -/
theorem tmi_c8_counterexample :
    (handleMessage afterGusState whisperNoSenderLine).events = [] ∧
    (handleMessage afterGusState whisperNoSenderLine).fault = some Fault.nullSender ∧
    whisperNoSenderLine.command ∉ earlyCommands ∧
    whisperNoSenderLine.command ∉ handledCommands ∧
    isJTV whisperNoSenderLine.sender = false :=
  ⟨rfl, rfl, by decide, by decide, rfl⟩

/-- Any command without a dedicated branch falls through to the
unhandled-command emit, whatever the resolution and self arguments were. -/
theorem dispatchCore_unhandled (c : ClientState) (pd : ParsedMessage)
    (data : MessageData) (cn : Option String) (ch : Option Channel) (nid : Nat)
    (self : Bool) (h : pd.command ∉ handledCommands) :
    dispatchCore c pd data cn ch nid self =
      { state := { c with nextId := nid }, writes := []
      , events := [Event.unhandledCommand data], fault := none } := by
  simp only [handledCommands, List.mem_cons, not_or] at h
  obtain ⟨hp1, hp2, hp3, hp4, hp5, hp6, -⟩ := h
  unfold dispatchCore
  rw [if_neg hp1, if_neg hp2, if_neg hp3, if_neg hp4, if_neg hp5, if_neg hp6]

/-- Claim C8 amended: a decoded line whose command is not PING, not 001, not
in the noop set, not from the jtv pseudo-user and not one of the six handled
commands emits exactly the unhandled-command event carrying the wrapped
decoded message, with no fault, no write and no state change, provided the
line carries a sender or no authenticated user is established; a sender-less
such line faults when an authenticated user is established. -/
theorem tmi_c8_unhandled (s : ClientState) (m : ParsedMessage)
    (h1 : m.command ∉ earlyCommands) (h2 : m.command ∉ handledCommands)
    (h3 : isJTV m.sender = false)
    (h4 : m.sender.isSome = true ∨ s.user = none) :
    (handleMessage s m).events = [Event.unhandledCommand (mkMessageData m)] ∧
    (handleMessage s m).fault = none ∧
    (handleMessage s m).writes = [] ∧
    (handleMessage s m).state.channels = s.channels ∧
    (handleMessage s m).state.user = s.user := by
  rcases h4 with hsome | hnone
  · rcases hs : m.sender with _ | pre
    · rw [hs] at hsome
      cases hsome
    · have hjtv : pre.user ≠ some "jtv" := by
        rw [hs] at h3
        simpa [isJTV] using h3
      rw [handleMessage_eq_core s m pre h1 hs hjtv]
      rw [dispatchCore_unhandled _ _ _ _ _ _ _ h2]
      exact ⟨rfl, rfl, rfl, rfl, rfl⟩
  · rw [handleMessage_eq_core_noUser s m h1 h3 hnone]
    rw [dispatchCore_unhandled _ _ _ _ _ _ _ h2]
    exact ⟨rfl, rfl, rfl, rfl, rfl⟩

/-- Witness for the amended C8: the exact case the original claim missed
narrowly — a sender-less WHISPER line dispatched while no authenticated
user is established emits exactly the unhandled-command event. -/
theorem tmi_c8_witness :
    (handleMessage freshClient whisperNoSenderLine).events =
        [Event.unhandledCommand (mkMessageData whisperNoSenderLine)] ∧
    (handleMessage freshClient whisperNoSenderLine).fault = none ∧
    (handleMessage freshClient whisperNoSenderLine).writes = [] ∧
    (handleMessage freshClient whisperNoSenderLine).state.channels = freshClient.channels ∧
    (handleMessage freshClient whisperNoSenderLine).state.user = freshClient.user :=
  tmi_c8_unhandled freshClient whisperNoSenderLine
    (by decide) (by decide) rfl (Or.inr rfl)

/-- Claim C1: a USERSTATE dispatched before any GLOBALUSERSTATE establishes
the authenticated user, and a PART dispatched in the same situation, both
raise a synchronous fault (a TypeError on the null user) from inbound
processing and emit no event at all, contradicting the no-op policy. -/
theorem tmi_c1_fault :
    (handleMessage freshClient userstateLine).fault = some Fault.nullUser ∧
    (handleMessage freshClient userstateLine).events = [] ∧
    (handleMessage freshClient partLine).fault = some Fault.nullUser ∧
    (handleMessage freshClient partLine).events = [] :=
  ⟨rfl, rfl, rfl, rfl⟩

/-- Dispatch performs no write outside the PING branch. -/
theorem dispatchCore_writes (c : ClientState) (pd : ParsedMessage) (data : MessageData)
    (cn : Option String) (ch : Option Channel) (nid : Nat) (self : Bool) :
    (dispatchCore c pd data cn ch nid self).writes = [] := by
  unfold dispatchCore
  repeat' split
  all_goals rfl

/-- The only write _handleMessage ever performs is the PONG reply. -/
theorem handleMessage_writes (c : ClientState) (pd : ParsedMessage) :
    (handleMessage c pd).writes = [] ∨
    (handleMessage c pd).writes = ["PONG :tmi.twitch.tv\r\n"] := by
  unfold handleMessage
  repeat' split
  all_goals simp [dispatchCore_writes]

/-- Every write a non-connect socket event produces is the PONG reply. -/
theorem stepSocket_writes (c : ClientState) (e : SocketEvent)
    (he : e ≠ SocketEvent.secureConnect) :
    ∀ w ∈ (stepSocket c e).writes, w = "PONG :tmi.twitch.tv\r\n" := by
  cases e with
  | secureConnect => exact absurd rfl he
  | dataLine pd =>
      intro w hw
      simp only [stepSocket] at hw
      rcases handleMessage_writes c pd with h0 | h0 <;> rw [h0] at hw
      · cases hw
      · simpa using hw
  | closeEv b => intro w hw; simp [stepSocket] at hw
  | errorEv => intro w hw; simp [stepSocket] at hw

/-- Every write produced while processing socket events that contain no
secureConnect is the PONG reply. -/
theorem runSocket_pong_writes (c : ClientState) (evs : List SocketEvent)
    (h : SocketEvent.secureConnect ∉ evs) :
    ∀ w ∈ (runSocket c evs).writes, w = "PONG :tmi.twitch.tv\r\n" := by
  induction evs generalizing c with
  | nil => intro w hw; simp [runSocket] at hw
  | cons e rest ih =>
      intro w hw
      have he : e ≠ SocketEvent.secureConnect := by
        intro hee
        exact h (by rw [hee]; exact List.mem_cons_self _ _)
      have hr : SocketEvent.secureConnect ∉ rest := fun hm => h (List.mem_cons_of_mem _ hm)
      simp only [runSocket] at hw
      rcases hf : (stepSocket c e).fault with _ | f
      · rw [hf] at hw
        dsimp only at hw
        rcases List.mem_append.mp hw with h1 | h1
        · exact stepSocket_writes c e he w h1
        · exact ih _ hr w h1
      · rw [hf] at hw
        dsimp only at hw
        exact stepSocket_writes c e he w hw

/-- The handshake write is never the PONG reply: their lengths differ. -/
theorem handshakeWrite_ne_pong (n a : String) :
    handshakeWrite n a ≠ "PONG :tmi.twitch.tv\r\n" := by
  intro h
  have hl := congrArg String.length h
  simp only [handshakeWrite, String.length_append] at hl
  have e1 : ("CAP REQ :twitch.tv/tags twitch.tv/commands\r\nPASS oauth:" : String).length = 55 := rfl
  have e2 : ("\r\nNICK " : String).length = 7 := rfl
  have e3 : ("\r\n" : String).length = 2 := rfl
  have e4 : ("PONG :tmi.twitch.tv\r\n" : String).length = 21 := rfl
  rw [e1, e2, e3, e4] at hl
  omega

/-- Claim C7 amended: on a successful connection made with a configured
identity, the very first write on the wire is the single handshake write,
the three commands joined in order, and it is never sent again while no
further secureConnect fires. -/
theorem tmi_c7_handshake (c : ClientState) (idn : Identity) (n a : String)
    (rest : List SocketEvent)
    (hid : c.optionsIdentity = some idn) (hn : idn.name = some n) (ha : idn.auth = some a)
    (hrest : SocketEvent.secureConnect ∉ rest) :
    (runSocket c (SocketEvent.secureConnect :: rest)).writes =
        handshakeWrite n a :: (runSocket c rest).writes ∧
    handshakeWrite n a ∉ (runSocket c rest).writes := by
  have honc : onConnect c =
      { state := c, writes := [handshakeWrite n a]
      , events := [Event.connected], fault := none } := by
    unfold onConnect
    rw [hid]
    dsimp only
    rw [hn, ha]
    rfl
  constructor
  · simp only [runSocket, stepSocket, honc]
    rfl
  · intro hmem
    exact handshakeWrite_ne_pong n a (runSocket_pong_writes c rest hrest _ hmem)

/-- Claim C7 counterexample: a successful connection on a client with no
identity configured sends nothing at all, not the handshake: the connect
handler faults on the absent identity and even the connected event is
never emitted. -/
theorem tmi_c7_counterexample :
    (runSocket freshClient [SocketEvent.secureConnect]).writes = [] ∧
    (runSocket freshClient [SocketEvent.secureConnect]).fault = some Fault.nullIdentity ∧
    (runSocket freshClient [SocketEvent.secureConnect]).events = [] :=
  ⟨rfl, rfl, rfl⟩

/-- Witness for the amended C7: connect succeeds, then a PING arrives; the
handshake write comes first and exactly once. -/
theorem tmi_c7_witness :
    (runSocket identifiedClient
        [SocketEvent.secureConnect, SocketEvent.dataLine pingLine]).writes =
      handshakeWrite "me" "tok" ::
        (runSocket identifiedClient [SocketEvent.dataLine pingLine]).writes ∧
    handshakeWrite "me" "tok" ∉
      (runSocket identifiedClient [SocketEvent.dataLine pingLine]).writes :=
  tmi_c7_handshake identifiedClient { name := some "me", auth := some "tok" } "me" "tok"
    [SocketEvent.dataLine pingLine] rfl rfl rfl (by decide)

/-- Claim C9: sendCommand with a parameter list sends exactly the wire line
that say would send for the same channel with the slash marker, the command
word and the space-joined parameters as the message text. -/
theorem tmi_c9_sendCommand_say (channel : ChannelArg) (word : String) (ps : List String) :
    sendCommand channel word (ParamsArg.many ps) =
      say channel ("/" ++ word ++ " " ++ String.intercalate " " ps) := rfl

/-- Claim C10: connect always returns an already-resolved promise, for every
session state, right after opening the socket to the configured host and
port and registering the four socket event handlers; the state is untouched
and nothing about the later connection outcome can flow into the returned
promise. -/
theorem tmi_c10_connect (c : ClientState) :
    (connect c).promise = PromiseOutcome.resolvedImmediately ∧
    (connect c).handlers = ["secureConnect", "close", "error", "data"] ∧
    (connect c).connectHost = c.connection.host ∧
    (connect c).connectPort = c.connection.port ∧
    (connect c).state = c :=
  ⟨rfl, rfl, rfl, rfl, rfl⟩

end TmiJS
